import Mathlib

/-!
Shallow embedding of the DetNet/TSN latency-jitter model
(packages jitter_delay_model and latency_jitter_model).
Numeric quantities (nanoseconds, bytes, Mbit/s) are modelled as rationals;
Python's float arithmetic on these inputs is exact division, which ℚ mirrors.
-/

namespace JDM

/-- Stream parameters (stream.py, class Stream). -/
structure Stream where
  name : String
  cycletime : ℚ
  offset : ℚ
  transmission_window : ℚ
  framesize : ℚ
  sender : String
  receiver : String
  priority : ℕ
deriving Repr, DecidableEq

/-- Attributes a graph vertex can carry (topology.py, add_node / add_port_to_node).
The Python graph stores an untyped attribute dict per vertex; forwarding nodes and
ports populate different keys, merged here into one record with the source defaults. -/
structure NodeData where
  forwarding_node : Bool := false
  processing_delay : ℚ := 1050
  processing_jitter : ℚ := 50
  sync_domain : Option String := none
  sync_jitter : ℚ := 30
  gcl : Bool := false
  gcl_cycle : ℚ := 1000000
  gcl_open : ℚ := 10000
  gcl_offset : ℚ := 1000
  express_priorities : List ℕ := []
  gcl_priorities : List ℕ := [0, 1, 2, 3, 4, 5, 6, 7]
  frame_preemption : Bool := false
deriving Repr

/-- Edge attributes (topology.py, add_edge) with the source defaults. -/
structure EdgeData where
  link_speed : ℚ := 1000
  max_frame_size : ℚ := 1522
  propagation_delay : ℚ := 0
  transmission_jitter : ℚ := 0
deriving Repr

/-- The topology graph as attribute lookups by vertex name (topology.py, class Topology).
Edges are looked up by the ordered pair of endpoint names, as G.get_edge_data does. -/
structure Topology where
  nodes : String → NodeData
  edge : String → String → EdgeData

/-- Python's `%` on rationals with the sign convention of the divisor
(used on nonnegative gate cycles throughout the source). -/
def pymod (a b : ℚ) : ℚ := a - b * ((⌊a / b⌋ : ℤ) : ℚ)

/-- Python math.ceil as a rational-valued function. -/
def ceilQ (x : ℚ) : ℚ := ((⌈x⌉ : ℤ) : ℚ)

/-- Python int() truncation toward zero as a rational-valued function. -/
def pyint (x : ℚ) : ℚ := if 0 ≤ x then ((⌊x⌋ : ℤ) : ℚ) else ((⌈x⌉ : ℤ) : ℚ)

/-- Python's substring test `pat in s` (used as `"talker" in node_name` in calculator.py). -/
def strContains (s pat : String) : Bool := (s.splitOn pat).length != 1

/-- helpers.py, get_transmission_duration: duration in ns of framesize bytes at
link_speed Mbit/s; the frame size must already include the L1 overhead. -/
def get_transmission_duration (framesize link_speed : ℚ) : ℚ :=
  framesize / (link_speed / 8 * 1000000) * 1000000000

/-- path_helpers.py, is_forwarding_node. -/
def is_forwarding_node (node_name : String) : Bool := !(node_name.contains '-')

/-- path_helpers.py, is_port. -/
def is_port (node_name : String) : Bool := node_name.contains '-'

/-- Python `s.split('-')[0]`: the prefix of the name before the first hyphen. -/
def headBeforeDash (s : String) : String :=
  String.mk (s.toList.takeWhile (fun c => c ≠ '-'))

/-- topology.py, Topology.get_forwarding_node_name_by_port. -/
def get_forwarding_node_name_by_port (port_name : String) : String :=
  headBeforeDash port_name

/-- Python `s.split('-')` (used where individual components are needed). -/
def splitDash (s : String) : List String := s.splitOn "-"

/-- path_helpers.py, is_rx_port (the single-string-name form used by the calculator):
a port is rx iff both it and its path predecessor are ports. -/
def is_rx_port (node_name : String) (path : List String) : Bool :=
  let port_index := path.indexOf node_name
  if port_index == 0 then false
  else (path.getD (port_index - 1) "").contains '-' && (path.getD port_index "").contains '-'

/-- path_helpers.py, is_tx_port (single-string-name form). -/
def is_tx_port (node_name : String) (path : List String) : Bool :=
  let port_index := path.indexOf node_name
  if port_index == path.length - 1 then false
  else (path.getD port_index "").contains '-' && (path.getD (port_index + 1) "").contains '-'

/-- path_helpers.py, get_ancestor_forwarding_node_name (by index). -/
def get_ancestor_forwarding_node_name (path : List String) (node_index : ℕ) : Option String :=
  let node_name := path.getD node_index ""
  let forwarding_node_name := if node_name.contains '-' then headBeforeDash node_name else node_name
  let forwarding_node_index := path.indexOf forwarding_node_name
  if forwarding_node_index < 3 then none
  else some (path.getD (forwarding_node_index - 3) "")

/-- path_helpers.py, get_ancestor_tx_port_node_name (by index). -/
def get_ancestor_tx_port_node_name (path : List String) (node_index : ℕ) : Option String :=
  let node_name := path.getD node_index ""
  let forwarding_node_name := if node_name.contains '-' then headBeforeDash node_name else node_name
  let forwarding_node_index := path.indexOf forwarding_node_name
  if forwarding_node_index < 2 then none
  else some (path.getD (forwarding_node_index - 2) "")

/-- topology.py, Topology.are_synchronized, on the two stored sync domains:
true iff both are not None and equal. -/
def syncMatch (domain_1 domain_2 : Option String) : Bool :=
  domain_1.isSome && domain_2.isSome && domain_1 == domain_2

/-- topology.py, Topology.are_synchronized. -/
def are_synchronized (t : Topology) (node1 node2 : String) : Bool :=
  syncMatch (t.nodes node1).sync_domain (t.nodes node2).sync_domain

/-- The calculator's read-only inputs (calculator.py, Calculator.__init__):
the topology, all streams, and the precomputed shortest path per stream name. -/
structure Ctx where
  topology : Topology
  streams : List Stream
  stream_paths : String → List String

/-- The bandwidth table `bandwidth_per_stream_and_node` flattened to an association
list keyed by (stream name, node name); lookups take the most recent entry,
mirroring dict overwrite semantics. -/
abbrev Bandwidths : Type := List (String × String × ℚ)

/-- calculator.py, Calculator.get_bandwidth, with node None meaning absent
(a None key is never present in the inner dict, so the default applies). -/
def get_bandwidth (bw : Bandwidths) (stream : Stream) (node_name : Option String) : ℚ :=
  match node_name with
  | none => stream.framesize
  | some n =>
    match bw.find? (fun e => e.1 == stream.name && e.2.1 == n) with
    | some e => e.2.2
    | none => stream.framesize

/-- calculator.py, Calculator.set_bandwidth: only overwrites with a strictly
larger value. -/
def set_bandwidth (bw : Bandwidths) (stream : Stream) (node_name : String) (bandwidth : ℚ) :
    Bandwidths :=
  if get_bandwidth bw stream (some node_name) < bandwidth then
    (stream.name, node_name, bandwidth) :: bw
  else bw

/-- calculator.py, Calculator.get_crossing_streams. -/
def get_crossing_streams (c : Ctx) (observed_stream_name : String) (port_node_name : String) :
    List Stream :=
  c.streams.filter (fun stream =>
    (c.stream_paths stream.name).contains port_node_name && stream.name != observed_stream_name)

/-- calculator.py, Calculator.get_interfering_streams. -/
def get_interfering_streams (c : Ctx) (observed_stream : Stream) (port_name : String) :
    List Stream :=
  let express_priorities := (c.topology.nodes port_name).express_priorities
  let crossing_streams := get_crossing_streams c observed_stream.name port_name
  if express_priorities.contains observed_stream.priority then
    crossing_streams.filter (fun stream =>
      decide (observed_stream.priority ≤ stream.priority) &&
        express_priorities.contains stream.priority)
  else
    crossing_streams.filter (fun stream =>
      express_priorities.contains stream.priority ||
        decide (observed_stream.priority ≤ stream.priority))

/-- calculator.py, Calculator.get_stream_transmission_duration: the bandwidth-table
value is consulted only when a node name is passed; otherwise the declared frame
size is used.  20 bytes of L1 overhead are added either way. -/
def get_stream_transmission_duration (bw : Bandwidths) (stream : Stream) (link_speed : ℚ)
    (node_name : Option String) : ℚ :=
  let framesize := match node_name with
    | some _ => get_bandwidth bw stream node_name
    | none => stream.framesize
  get_transmission_duration (framesize + 20) link_speed

/-- One entry of the best-case trace (a 5-tuple in calculator.py):
(node, window start, window end, cumulative start, cumulative end). -/
structure BEntry where
  node : String
  ws : ℚ
  we : ℚ
  cs : ℚ
  ce : ℚ
deriving Repr, DecidableEq

/-- One entry of the worst-case trace (a 6-tuple in calculator.py): the best-case
fields plus the effective last-observed gate cycle. -/
structure WEntry where
  node : String
  ws : ℚ
  we : ℚ
  cs : ℚ
  ce : ℚ
  cyc : ℚ
deriving Repr, DecidableEq

/-- Default used for out-of-range trace accesses; the source only accesses
positions its control flow guarantees to exist. -/
def bDefault : BEntry := ⟨"", 0, 0, 0, 0⟩

/-- Default used for out-of-range worst-trace accesses. -/
def wDefault : WEntry := ⟨"", 0, 0, 0, 0, 0⟩

/-- Per-port statistics record (helpers.py, class PortStatistics). -/
structure PortStat where
  node_name : String
  port_name : Option String
  direction : String
  best_case : ℚ := 0
  worst_case : ℚ := 0
  resource_utilization : ℚ := 0
deriving Repr, DecidableEq

/-- helpers.py, StreamStatistics.__init__: the per-port entries along a path,
skipping the endpoints and rx ports, with direction rx for forwarding nodes. -/
def mkStreamStatistics (nodes : String → NodeData) (path : List String) : List PortStat :=
  (List.range path.length).filterMap (fun index =>
    let node_name := path.getD index ""
    if index == 0 then none
    else if index == path.length - 1 then none
    else if is_rx_port node_name path then none
    else
      let node_data := nodes node_name
      let direction := if node_data.forwarding_node then "rx" else "tx"
      let split := splitDash node_name
      some { node_name := split.headD node_name, port_name := split.get? 1,
             direction := direction })

/-- helpers.py, StreamStatistics.get_port_statistics: the lookup predicate.
A query without a hyphen matches on the node name only. -/
def statMatches (query : String) (ps : PortStat) : Bool :=
  let split := splitDash query
  let node_name := split.headD query
  match split.get? 1 with
  | none => ps.node_name == node_name
  | some p => ps.node_name == node_name && ps.port_name == some p

/-- Replace the first list element satisfying the predicate (Python mutates the
object returned by get_port_statistics; a missing match is a silent no-op, the
try/except around the lookup). -/
def updateFirst (p : PortStat → Bool) (f : PortStat → PortStat) : List PortStat → List PortStat
  | [] => []
  | x :: xs => if p x then f x :: xs else x :: updateFirst p f xs

/-- Python `node_name + '-' + str(port_name) + '-' + direction` used by the
stop_at_node comparison in get_summarized_best_case / get_summarized_worst_case
(str(None) renders as the string None). -/
def fmtStat (ps : PortStat) : String :=
  ps.node_name ++ "-" ++ (match ps.port_name with | some p => p | none => "None")
    ++ "-" ++ ps.direction

/-- helpers.py, StreamStatistics.get_summarized_best_case with a stop node: delays
are accumulated up to and including the first entry whose formatted name matches. -/
def sumBestUntil : List PortStat → String → ℚ
  | [], _ => 0
  | ps :: rest, stop =>
      if fmtStat ps == stop then ps.best_case else ps.best_case + sumBestUntil rest stop

/-- helpers.py, StreamStatistics.get_summarized_worst_case with a stop node. -/
def sumWorstUntil : List PortStat → String → ℚ
  | [], _ => 0
  | ps :: rest, stop =>
      if fmtStat ps == stop then ps.worst_case else ps.worst_case + sumWorstUntil rest stop

/-- helpers.py, StreamStatistics.get_summarized_best_case. -/
def get_summarized_best_case (stats : List PortStat) (stop_at_node : Option String) : ℚ :=
  match stop_at_node with
  | none => (stats.map (fun ps => ps.best_case)).sum
  | some stop => sumBestUntil stats stop

/-- helpers.py, StreamStatistics.get_summarized_worst_case. -/
def get_summarized_worst_case (stats : List PortStat) (stop_at_node : Option String) : ℚ :=
  match stop_at_node with
  | none => (stats.map (fun ps => ps.worst_case)).sum
  | some stop => sumWorstUntil stats stop

/-- calculator.py lines 211-226: the interference set actually used at a tx port,
i.e. get_interfering_streams narrowed by the same-or-higher priority filter, the
express narrowing under frame preemption, and the gate-priority narrowing. -/
def interferingAt (c : Ctx) (node_data : NodeData) (stream : Stream) (node_name : String) :
    List Stream :=
  let i1 := get_interfering_streams c stream node_name
  let i2 := i1.filter (fun s => decide (stream.priority ≤ s.priority))
  let i3 := if node_data.frame_preemption && !node_data.express_priorities.isEmpty then
      i2.filter (fun s => node_data.express_priorities.contains s.priority)
    else i2
  if node_data.gcl && !node_data.gcl_priorities.isEmpty then
    i3.filter (fun s => node_data.gcl_priorities.contains s.priority)
  else i3

/-- calculator.py lines 230-236: the interference delay at a tx port, already
scaled by ceil(previous worst cycle / stream cycle) and zeroed when the node
name contains the substring talker. -/
def interferenceDelay (c : Ctx) (bw : Bandwidths) (node_data : NodeData) (stream : Stream)
    (node_name : String) (edge : EdgeData) (prev_cycle : ℚ) : ℚ :=
  let interfering_streams := interferingAt c node_data stream node_name
  let delays := interfering_streams.map (fun s =>
    get_stream_transmission_duration bw s edge.link_speed (some node_name) +
      edge.transmission_jitter)
  let d_interference : ℚ := if strContains node_name "talker" then 0 else delays.sum
  d_interference * ceilQ (prev_cycle / stream.cycletime)

/-- calculator.py lines 241-257: the blocking byte count (including L1 overhead)
at a tx port: 123+20 for an express-preempted stream, max frame + 20 otherwise,
overridden to 0 when no effectively gate-controlled priority is below the
stream's priority.  The express set counts only under frame preemption; the
gate set defaults to all priorities when no gate is configured. -/
def blockingBytes (node_data : NodeData) (max_frame_size : ℚ) (priority : ℕ) : ℚ :=
  let express_priorities := if node_data.frame_preemption then node_data.express_priorities
    else []
  let gcl_priorities := if node_data.gcl then node_data.gcl_priorities
    else [0, 1, 2, 3, 4, 5, 6, 7]
  let blck_bytes : ℚ := if express_priorities.contains priority then 123 + 20
    else max_frame_size + 20
  if (gcl_priorities.filter (fun g => decide (g < priority))).isEmpty then 0 else blck_bytes

/-- calculator.py line 261: the blocking delay, zeroed when the node name
contains the substring talker. -/
def blockingDelay (node_name : String) (node_data : NodeData) (edge : EdgeData)
    (priority : ℕ) : ℚ :=
  if strContains node_name "talker" then 0
  else get_transmission_duration (blockingBytes node_data edge.max_frame_size priority)
    edge.link_speed

/-- The propagator's walk state: the two traces (most recent entry first), the
per-hop multiplication factors (reversed), and the per-port statistics being
rewritten (calculator.py, calculate_delays_for_stream locals). -/
structure WalkState where
  best : List BEntry
  worst : List WEntry
  mult : List ℚ
  stats : List PortStat
deriving Repr

/-- calculator.py lines 166-171: initial traces at the talker plus the cleared
statistics (clear_best_case and clear_worst_case zero those two fields only). -/
def initWalkState (stream : Stream) (stats : List PortStat) : WalkState :=
  { best := [⟨"init", stream.offset, stream.offset + stream.transmission_window, 0, 0⟩],
    worst := [⟨"init", stream.offset, stream.offset + stream.transmission_window, 0, 0,
               stream.cycletime⟩],
    mult := [],
    stats := stats.map (fun ps => { ps with best_case := 0, worst_case := 0 }) }

/-- Lines 462-476 of calculator.py: push the freshly computed trace entries,
collapsing an inverted best window, restoring the cumulative fields of endpoint
nodes from the previous entries, and storing min/max cumulative values into the
matching per-port statistic. -/
def pushEntries (node_name : String) (st : WalkState) (b1 : BEntry) (w1 : WEntry)
    (nb0 : BEntry) (nw0 : WEntry) (m : ℚ) : WalkState :=
  let nb1 := if nb0.we < nb0.ws then { nb0 with we := nb0.ws } else nb0
  let isEnd := strContains node_name "talker" || strContains node_name "listener"
  let nb2 := if isEnd then { nb1 with cs := b1.cs, ce := b1.ce } else nb1
  let nw2 := if isEnd then { nw0 with cs := w1.cs, ce := w1.ce } else nw0
  let stats2 := updateFirst (statMatches node_name)
    (fun ps => { ps with best_case := min nb2.cs nb2.ce,
                         worst_case := max nw2.cs nw2.ce }) st.stats
  { best := nb2 :: st.best, worst := nw2 :: st.worst, mult := m :: st.mult,
    stats := stats2 }

/-- One iteration of the path loop of calculator.py, calculate_delays_for_stream
(lines 174-476), for the path element at the given index. -/
def stepNode (c : Ctx) (bw : Bandwidths) (stream : Stream) (path : List String) (index : ℕ)
    (st : WalkState) : WalkState :=
  let node_name := path.getD index ""
  let node_data := c.topology.nodes node_name
  if is_rx_port node_name path then
    { st with mult := 1 :: st.mult }
  else
    let b1 := st.best.headD bDefault
    let w1 := st.worst.headD wDefault
    let w2 := st.worst.getD 1 wDefault
    let next : BEntry × WEntry × ℚ :=
      if node_data.forwarding_node then
        let d_proc := node_data.processing_delay
        let d_proc_bc := d_proc - node_data.processing_jitter
        let d_proc_wc := d_proc + node_data.processing_jitter
        (⟨node_name, b1.ws + d_proc_bc, b1.we + d_proc_bc, b1.cs + d_proc_bc,
          b1.ce + d_proc_bc⟩,
         ⟨node_name, w1.ws + d_proc_wc, w1.we + d_proc_wc, w1.cs + d_proc_wc,
          w1.cs + d_proc_wc, 0⟩,
         1)
      else
        let forwarding_node_name := get_forwarding_node_name_by_port node_name
        let fnd := c.topology.nodes forwarding_node_name
        let edge := c.topology.edge node_name (path.getD (index + 1) "")
        let is_synchronized := match get_ancestor_forwarding_node_name path index with
          | some anc => are_synchronized c.topology forwarding_node_name anc
          | none => true
        let d_prop := edge.propagation_delay
        let d_trans := get_stream_transmission_duration bw stream edge.link_speed none
        let d_trans_bc := d_trans - edge.transmission_jitter + d_prop
        let d_trans_wc := d_trans + edge.transmission_jitter + d_prop
        let interfering_streams := interferingAt c node_data stream node_name
        let d_interference := interferenceDelay c bw node_data stream node_name edge w2.cyc
        let d_blck := blockingDelay node_name node_data edge stream.priority
        let d_dwell := d_trans_wc + d_blck + max 0 (w2.cyc - node_data.gcl_cycle)
        let m : ℚ := if node_data.gcl then node_data.gcl_cycle / max 1 w2.cyc else 1
        if node_data.gcl then
          if is_synchronized && b1.ws != -1 then
            let gc := node_data.gcl_cycle
            let go := node_data.gcl_offset
            let gw := node_data.gcl_open
            let early_1 := go - pymod b1.ws gc
            let early_2 := go - b1.we
            let remaining_2 := (go + gw) - pymod b1.we gc
            let bq : ℚ × ℚ × ℚ × ℚ :=
              if 0 ≤ early_1 then
                if 0 ≤ early_2 then (early_1, early_2, 0, 0)
                else if d_trans_bc ≤ remaining_2 then (early_1, 0, 0, 0)
                else (early_1, 0, 0, -remaining_2)
              else (0, 0, 0, 0)
            let d_forward_1 := bq.1 + d_trans_bc - fnd.sync_jitter
            let d_forward_2 := bq.2.1 + d_trans_bc - fnd.sync_jitter
            let newB : BEntry := ⟨node_name, b1.ws + d_forward_1 + bq.2.2.1,
              b1.we + d_forward_2 + bq.2.2.2, b1.cs + d_forward_1, b1.ce + d_forward_2⟩
            let late_1 := (go + gw) - pymod w1.ws gc
            let late_2 := (go + gw) - pymod w1.we gc
            let earlyw_1 := go - pymod w1.ws gc
            let earlyw_2 := go - pymod w1.we gc
            let tmp := d_trans + d_blck + d_interference
            let wq : ℚ × ℚ :=
              if late_1 < tmp && late_2 < tmp then
                (gc - pymod w1.ws gc + gw, gc - pymod w1.we gc + gw)
              else if late_2 < tmp then
                let d_gate_unsync := gc - gw + d_trans +
                  d_interference / max 1 (interfering_streams.length : ℚ)
                (0, d_gate_unsync + max 0 (gc - w2.cyc))
              else if 0 ≤ earlyw_2 then (earlyw_1, earlyw_2)
              else if 0 ≤ earlyw_1 then (earlyw_1, 0)
              else (0, 0)
            let d_forw_1 := wq.1 + d_trans + d_blck + d_interference + fnd.sync_jitter +
              max 0 (gc - w2.cyc)
            let d_forw_2 := wq.2 + d_trans + d_blck + d_interference + fnd.sync_jitter +
              max 0 (gc - w2.cyc)
            let newW : WEntry := ⟨node_name, w1.ws + d_forw_1, w1.we + d_forw_2,
              w1.cs + d_forw_1, w1.ce + d_forw_2, gc⟩
            (newB, newW, m)
          else
            let gc := node_data.gcl_cycle
            let go := node_data.gcl_offset
            let gw := node_data.gcl_open
            let exceeding := (b1.we - b1.ws) - gw
            let gcl_close := go + gw
            let newB : BEntry :=
              if 0 < exceeding then
                ⟨node_name, go, gcl_close, b1.cs + d_trans_bc, b1.ce + d_trans_bc + exceeding⟩
              else
                ⟨node_name, go, gcl_close, b1.cs + d_trans_bc, b1.ce + d_trans_bc⟩
            let d_gate := gc - gw + d_trans +
              d_interference / max 1 (interfering_streams.length : ℚ)
            let d_forward := d_gate + d_dwell
            let newW : WEntry := ⟨node_name, go, gcl_close, w1.cs + d_forward,
              w1.ce + d_forward, gc⟩
            (newB, newW, m)
        else
          if is_synchronized && b1.ws != -1 then
            (⟨node_name, b1.ws + d_trans_bc, b1.we + d_trans_bc, b1.cs + d_trans_bc,
              b1.ce + d_trans_bc⟩,
             ⟨node_name, w1.ws + d_dwell + d_interference, w1.we + d_dwell + d_interference,
              w1.cs + d_dwell + d_interference, w1.ce + d_dwell + d_interference, w2.cyc⟩,
             m)
          else
            (⟨node_name, -1, w2.cyc - d_trans_wc * 3, b1.cs + d_trans_bc,
              b1.ce + d_trans_bc⟩,
             ⟨node_name, -1, w2.cyc - d_trans_wc * 3, w1.cs + d_dwell + d_interference,
              w1.ce + d_dwell + d_interference, w2.cyc⟩,
             m)
    pushEntries node_name st b1 w1 next.1 next.2.1 next.2.2

/-- calculator.py, Calculator.calculate_delays_for_stream: the full path walk,
producing the final traces, multiplication factors and rewritten statistics. -/
def calcDelaysForStream (c : Ctx) (bw : Bandwidths) (stream : Stream)
    (stats : List PortStat) : WalkState :=
  let path := c.stream_paths stream.name
  (List.range path.length).foldl (fun st index => stepNode c bw stream path index st)
    (initWalkState stream stats)

/-- The pair returned by calculate_delays_for_stream (line 481): min of the
penultimate best cumulative fields and max of the penultimate worst ones. -/
def calcReturn (st : WalkState) : ℚ × ℚ :=
  (min (st.best.getD 1 bDefault).cs (st.best.getD 1 bDefault).ce,
   max (st.worst.getD 1 wDefault).cs (st.worst.getD 1 wDefault).ce)

/-- The calculator's mutable state: the bandwidth table, and per stream name the
statistics and the saved multiplication factors.  Association lists take the
most recent entry, mirroring dict/attribute overwrite. -/
structure CalcState where
  bw : Bandwidths
  stats : List (String × List PortStat)
  mults : List (String × List ℚ)
deriving Repr

/-- Stream statistics stored for a stream name (empty when absent). -/
def getStreamStats (s : CalcState) (name : String) : List PortStat :=
  match s.stats.find? (fun e => e.1 == name) with
  | some e => e.2
  | none => []

/-- Saved multiplication factors for a stream name. -/
def getMults (s : CalcState) (name : String) : List ℚ :=
  match s.mults.find? (fun e => e.1 == name) with
  | some e => e.2
  | none => []

/-- calculator.py, Calculator.__init__: statistics objects are created per stream
from its path; the bandwidth table starts empty. -/
def initCalcState (c : Ctx) : CalcState :=
  { bw := [],
    stats := c.streams.map (fun s =>
      (s.name, mkStreamStatistics c.topology.nodes (c.stream_paths s.name))),
    mults := c.streams.map (fun s => (s.name, [])) }

/-- Run calculate_delays_for_stream for one stream, storing the rewritten
statistics and the saved multiplication factors. -/
def propagateStream (c : Ctx) (s : CalcState) (stream : Stream) : CalcState :=
  let w := calcDelaysForStream c s.bw stream (getStreamStats s stream.name)
  { s with stats := (stream.name, w.stats) :: s.stats,
           mults := (stream.name, w.mult.reverse) :: s.mults }

/-- calculator.py, Calculator.calculate_delays (all streams). -/
def calculate_delays (c : Ctx) (s : CalcState) : CalcState :=
  c.streams.foldl (propagateStream c) s

/-- calculator.py, Calculator.get_new_bandwidth: when a node name is given its
gcl_cycle attribute is the cycle time, otherwise the explicitly passed one. -/
def get_new_bandwidth (c : Ctx) (bw : Bandwidths) (stream : Stream) (d_arriv : ℚ)
    (node_a node_b : Option String) (ct_a ct_b : ℚ) : ℚ :=
  let ct_a := match node_a with
    | some a => (c.topology.nodes a).gcl_cycle
    | none => ct_a
  let ct_b := match node_b with
    | some b => (c.topology.nodes b).gcl_cycle
    | none => ct_b
  let factor_arriv := ceilQ (d_arriv / ct_b)
  let factor_ct := ceilQ (ct_b / ct_a)
  get_bandwidth bw stream node_a * factor_arriv * factor_ct

/-- calculator.py, Calculator.recalculate_bandwidth_for_stream. -/
def recalculate_bandwidth_for_stream (c : Ctx) (bw : Bandwidths) (stream : Stream)
    (stats : List PortStat) : Bandwidths :=
  let path := c.stream_paths stream.name
  (List.range path.length).foldl (fun bw index =>
    let node_name := path.getD index ""
    let node_data := c.topology.nodes node_name
    if index == 0 then bw
    else if node_data.forwarding_node then bw
    else if index == path.length - 1 then bw
    else if is_rx_port node_name path then bw
    else
      let forwarding_node_name := get_ancestor_forwarding_node_name path index
      let ancestor_port_node_name := get_ancestor_tx_port_node_name path index
      if ancestor_port_node_name.isNone && index != 1 then bw
      else
        let fwd := match forwarding_node_name with | some f => f | none => "None"
        let best_case_sum := get_summarized_best_case stats (some (fwd ++ "-tx"))
        let worst_case_sum := get_summarized_worst_case stats (some (fwd ++ "-tx"))
        let d_arriv := worst_case_sum - best_case_sum
        let new_bandwidth :=
          if index == 1 then
            get_new_bandwidth c bw stream d_arriv none (some node_name) stream.cycletime 0
          else
            get_new_bandwidth c bw stream d_arriv ancestor_port_node_name (some node_name) 0 0
        set_bandwidth bw stream node_name new_bandwidth) bw

/-- calculator.py, Calculator.recalculate_bandwidth (all streams). -/
def recalculate_bandwidth (c : Ctx) (s : CalcState) : CalcState :=
  { s with bw := c.streams.foldl (fun bw stream =>
      recalculate_bandwidth_for_stream c bw stream (getStreamStats s stream.name)) s.bw }

/-- Intermediate state of the utilization loop: the running factor, the collected
occupancy fractions, and the statistics being updated. -/
structure UtilAcc where
  factor : ℚ
  occs : List ℚ
  stats : List PortStat
deriving Repr

/-- calculator.py, Calculator.get_resource_utilization_for_stream: per tx port,
occupancy = interfering delays + own transmission times the running factor,
divided by the gate open window (as Python int) or the stream cycle time.
Returns the occupancy list and the updated statistics. -/
def get_resource_utilization_for_stream (c : Ctx) (bw : Bandwidths) (stream : Stream)
    (stats : List PortStat) (mults : List ℚ) : List ℚ × List PortStat :=
  let path := c.stream_paths stream.name
  let acc0 : UtilAcc :=
    { factor := 1, occs := [],
      stats := stats.map (fun ps => { ps with resource_utilization := 0 }) }
  let acc := (List.range path.length).foldl (fun (acc : UtilAcc) index =>
    let node_name := path.getD index ""
    let node_data := c.topology.nodes node_name
    if !(is_tx_port node_name path) then acc
    else
      let edge := c.topology.edge node_name (path.getD (index + 1) "")
      let interfering_streams := get_interfering_streams c stream node_name
      let interfering_streams_delays := interfering_streams.map (fun s =>
        get_stream_transmission_duration bw s edge.link_speed (some node_name) +
          edge.transmission_jitter)
      let factor := acc.factor * max 1 (mults.getD index 1)
      let window_size : ℚ := if node_data.gcl then pyint node_data.gcl_open
        else stream.cycletime
      let occupancy := interfering_streams_delays.sum +
        get_stream_transmission_duration bw stream edge.link_speed (some node_name) * factor
      let frac := occupancy / window_size
      { factor := factor, occs := acc.occs ++ [frac],
        stats := updateFirst (statMatches node_name)
          (fun ps => { ps with resource_utilization := frac }) acc.stats }) acc0
  (acc.occs, acc.stats)

/-- Python max() of a list, None on the empty list (where Python raises). -/
def listMax : List ℚ → Option ℚ
  | [] => none
  | x :: xs => match listMax xs with
    | none => some x
    | some m => some (max x m)

/-- calculator.py, Calculator.get_resource_utilization: first reruns the delay
propagation for every stream, then computes and returns the occupancy maximum of
the FIRST stream only (the return statement sits inside the loop). -/
def get_resource_utilization (c : Ctx) (s : CalcState) : Option ℚ × CalcState :=
  let s1 := calculate_delays c s
  match c.streams with
  | [] => (none, s1)
  | s0 :: _ =>
      let res := get_resource_utilization_for_stream c s1.bw s0 (getStreamStats s1 s0.name)
        (getMults s1 s0.name)
      (listMax res.1, { s1 with stats := (s0.name, res.2) :: s1.stats })

/-- The converged run of section 5 of the specification: propagate, reinflate,
propagate, reinflate, propagate, estimate. -/
def convergedRun (c : Ctx) : Option ℚ × CalcState :=
  let s1 := calculate_delays c (initCalcState c)
  let s2 := recalculate_bandwidth c s1
  let s3 := calculate_delays c s2
  let s4 := recalculate_bandwidth c s3
  let s5 := calculate_delays c s4
  get_resource_utilization c s5

/-! Concrete topologies used to instantiate the theorems. -/

/-- A plain talker - switch - listener path with no gates and default attributes
(sync domain D everywhere, 1 Gbit/s links). -/
def spPath : List String :=
  ["talker", "talker-1", "sw-2", "sw", "sw-1", "listener-1", "listener"]

/-- Vertex attributes of the plain topology. -/
def spNodes : String → NodeData := fun n =>
  if n = "talker" || n = "sw" || n = "listener" then
    { forwarding_node := true, sync_domain := some "D" }
  else { }

/-- The single stream of the plain topology: 100 bytes, priority 6, 100 us cycle. -/
def spStream : Stream :=
  { name := "Stream 1", cycletime := 100000, offset := 0, transmission_window := 0,
    framesize := 100, sender := "talker", receiver := "listener", priority := 6 }

/-- The plain single-stream context. -/
def spCtx : Ctx :=
  { topology := { nodes := spNodes, edge := fun _ _ => {} },
    streams := [spStream],
    stream_paths := fun _ => spPath }

/-- A bandwidth table recording 2000 bytes for the stream at the switch tx port. -/
def spBw : Bandwidths := [("Stream 1", "sw-1", 2000)]

/-- Gated topology on which best-case exceeds worst-case at the switch tx port:
the talker has a large processing jitter, so the best and worst windows reach the
switch gate in different phases and the earlier best window waits longer. -/
def gateNodes : String → NodeData := fun n =>
  if n = "talker" then
    { forwarding_node := true, processing_delay := 1000, processing_jitter := 1000,
      sync_domain := some "D", sync_jitter := 0 }
  else if n = "sw" then
    { forwarding_node := true, processing_delay := 1000, processing_jitter := 0,
      sync_domain := some "D", sync_jitter := 0 }
  else if n = "listener" then
    { forwarding_node := true, sync_domain := some "D", sync_jitter := 0 }
  else if n = "talker-1" then
    { gcl := true, gcl_cycle := 100000, gcl_offset := 1000, gcl_open := 50000,
      gcl_priorities := [7] }
  else if n = "sw-1" then
    { gcl := true, gcl_cycle := 100000, gcl_offset := 50000, gcl_open := 10000,
      gcl_priorities := [7] }
  else { }

/-- The stream of the gated topology (priority 7, controlled by both gates). -/
def gateStream : Stream :=
  { name := "Stream 1", cycletime := 100000, offset := 0, transmission_window := 0,
    framesize := 100, sender := "talker", receiver := "listener", priority := 7 }

/-- The gated single-stream context. -/
def gateCtx : Ctx :=
  { topology := { nodes := gateNodes, edge := fun _ _ => {} },
    streams := [gateStream],
    stream_paths := fun _ => spPath }

/-- Two-switch path with a gate on the first switch only; the transmission window
is positive, so the worst-case trace reaches the second switch with different
cumulative start and end. -/
def twoPath : List String :=
  ["talker", "talker-1", "sw1-2", "sw1", "sw1-1", "sw2-2", "sw2", "sw2-1",
   "listener-1", "listener"]

/-- Vertex attributes of the two-switch topology. -/
def twoNodes : String → NodeData := fun n =>
  if n = "talker" || n = "sw1" || n = "sw2" || n = "listener" then
    { forwarding_node := true, sync_domain := some "D" }
  else if n = "sw1-1" then
    { gcl := true, gcl_cycle := 100000, gcl_offset := 10000, gcl_open := 50000,
      gcl_priorities := [7] }
  else { }

/-- The stream of the two-switch topology (5 us transmission window). -/
def twoStream : Stream :=
  { name := "Stream 1", cycletime := 100000, offset := 0, transmission_window := 5000,
    framesize := 100, sender := "talker", receiver := "listener", priority := 7 }

/-- The two-switch single-stream context. -/
def twoCtx : Ctx :=
  { topology := { nodes := twoNodes, edge := fun _ _ => {} },
    streams := [twoStream],
    stream_paths := fun _ => twoPath }

/-- Two disjoint single-switch paths for two streams whose occupancies differ. -/
def u1Path : List String := ["a", "a-1", "m-2", "m", "m-1", "b-1", "b"]

/-- The second disjoint path. -/
def u2Path : List String := ["cc", "cc-1", "n-2", "n", "n-1", "d-1", "d"]

/-- Vertex attributes for the two disjoint paths (all defaults, no gates). -/
def uNodes : String → NodeData := fun n =>
  if n = "a" || n = "m" || n = "b" || n = "cc" || n = "n" || n = "d" then
    { forwarding_node := true, sync_domain := some "D" }
  else { }

/-- First stream: small frame, long cycle - low occupancy. -/
def uStream1 : Stream :=
  { name := "S1", cycletime := 100000, offset := 0, transmission_window := 0,
    framesize := 100, sender := "a", receiver := "b", priority := 6 }

/-- Second stream: large frame, short cycle - high occupancy. -/
def uStream2 : Stream :=
  { name := "S2", cycletime := 10000, offset := 0, transmission_window := 0,
    framesize := 1000, sender := "cc", receiver := "d", priority := 6 }

/-- The two-stream context with disjoint paths. -/
def uCtx : Ctx :=
  { topology := { nodes := uNodes, edge := fun _ _ => {} },
    streams := [uStream1, uStream2],
    stream_paths := fun name => if name = "S1" then u1Path else u2Path }

/-! JSON fragments of the topology schema needed for the serialization claims. -/

/-- The JSON value kinds occurring in node and port objects of the schema. -/
inductive JVal where
  | s (v : String)
  | i (v : ℤ)
  | b (v : Bool)
  | arr (v : List ℤ)
deriving Repr, DecidableEq

/-- A JSON object as an association list of key/value pairs. -/
abbrev JObj : Type := List (String × JVal)

/-- Python dict.get on a JSON object (first matching key). -/
def jGet (o : JObj) (k : String) : Option JVal :=
  match o.find? (fun e => e.1 == k) with
  | some e => some e.2
  | none => none

/-- topology.py, Topology.node_from_json, lines 427-429: the parsed sync domain.
Python evaluates str(node.get('syncDomain', None)); when the key is absent this
is str(None), the four-character string None, and only the empty string is then
mapped back to an absent domain.  The schema stores sync domains as strings, so
only the string and absent cases occur. -/
def node_sync_domain_from_json (node : JObj) : Option String :=
  let sync_domain : String := match jGet node "syncDomain" with
    | some (JVal.s v) => v
    | _ => "None"
  if sync_domain = "" then none else some sync_domain

/-- Port attributes with integer-valued GCL parameters as they appear in JSON
(topology.py, PortAttrs). -/
structure PortJ where
  express_priorities : List ℤ
  frame_preemption : Bool
  gcl : Bool
  gcl_cycle : ℤ
  gcl_open : ℤ
  gcl_offset : ℤ
  gcl_priorities : List ℤ
deriving Repr, DecidableEq

/-- topology.py, Topology._priority_list_from_json: validates all entries in 0..7. -/
def priority_list_from_json (raw : List ℤ) : Option (List ℤ) :=
  if raw.all (fun i => decide (0 ≤ i) && decide (i ≤ 7)) then some raw else none

/-- topology.py lines 282-295: the JSON object emitted by Topology.to_json for a
single port (the name already stripped of the node prefix).  Optional keys are
emitted only when the feature is enabled or the value differs from its default. -/
def port_to_json (name : String) (p : PortJ) : JObj :=
  [("name", JVal.s name), ("framePreemption", JVal.b p.frame_preemption)]
  ++ (if p.frame_preemption || !(p.express_priorities == []) then
        [("expressPriorities", JVal.arr p.express_priorities)] else [])
  ++ [("gcl", JVal.b p.gcl)]
  ++ (if p.gcl || !(p.gcl_cycle == 1000000) then [("gclCycle", JVal.i p.gcl_cycle)] else [])
  ++ (if p.gcl || !(p.gcl_open == 10000) then [("gclOpen", JVal.i p.gcl_open)] else [])
  ++ (if p.gcl || !(p.gcl_offset == 1000) then [("gclOffset", JVal.i p.gcl_offset)] else [])
  ++ (if p.gcl || !(p.gcl_priorities == [0, 1, 2, 3, 4, 5, 6, 7]) then
        [("gclPriorities", JVal.arr p.gcl_priorities)] else [])

/-- Field access mirroring Python's dict.get with default followed by int():
absent keys yield the default, present keys must hold an integer. -/
def jFieldInt (o : JObj) (k : String) (dflt : ℤ) : Option ℤ :=
  match jGet o k with
  | some (JVal.i v) => some v
  | some _ => none
  | none => some dflt

/-- dict.get with default followed by bool(). -/
def jFieldBool (o : JObj) (k : String) (dflt : Bool) : Option Bool :=
  match jGet o k with
  | some (JVal.b v) => some v
  | some _ => none
  | none => some dflt

/-- dict.get with default for array-valued keys. -/
def jFieldArr (o : JObj) (k : String) (dflt : List ℤ) : Option (List ℤ) :=
  match jGet o k with
  | some (JVal.arr v) => some v
  | some _ => none
  | none => some dflt

/-- topology.py, Topology.port_from_json (lines 379-417).  Note the key used for
the gate cycle: gcl_cycle, whereas the PortJson schema and to_json write
gclCycle. -/
def port_from_json (port : JObj) : Option (String × PortJ) := do
  let name ← match jGet port "name" with | some (JVal.s v) => some v | _ => none
  let raw_express ← jFieldArr port "expressPriorities" []
  let express_priorities ← priority_list_from_json raw_express
  let frame_preemption ← jFieldBool port "framePreemption" false
  let gcl ← jFieldBool port "gcl" false
  let gcl_cycle ← jFieldInt port "gcl_cycle" 1000000
  let gcl_open ← jFieldInt port "gclOpen" 10000
  let gcl_offset ← jFieldInt port "gclOffset" 1000
  let raw_gclp ← jFieldArr port "gclPriorities" [0, 1, 2, 3, 4, 5, 6, 7]
  let gcl_priorities ← priority_list_from_json raw_gclp
  some (name, ⟨express_priorities, frame_preemption, gcl, gcl_cycle, gcl_open,
    gcl_offset, gcl_priorities⟩)

/-- A gate-enabled port with a non-default 100 us gate cycle. -/
def roundtripPort : PortJ :=
  ⟨[], false, true, 100000, 10000, 1000, [0, 1, 2, 3, 4, 5, 6, 7]⟩

/-- A port with frame preemption disabled but a declared express priority 7
(expressPriorities is independent of framePreemption in the schema). -/
def fpOffNode : NodeData := { express_priorities := [7] }

/-- A frame-preemption port with express priority 7. -/
def fpOnNode : NodeData := { frame_preemption := true, express_priorities := [7] }

/-- Default port statistic used for out-of-range accesses in concrete statements. -/
def psDefault : PortStat := { node_name := "", port_name := none, direction := "" }

/-- The plain walk with an empty bandwidth table. -/
def spWalk : WalkState := calcDelaysForStream spCtx [] spStream (mkStreamStatistics spNodes spPath)

/-- The plain walk with the 2000-byte bandwidth-table entry at the switch tx port. -/
def spWalkBw : WalkState :=
  calcDelaysForStream spCtx spBw spStream (mkStreamStatistics spNodes spPath)

/-- The two-switch walk. -/
def twoWalk : WalkState :=
  calcDelaysForStream twoCtx [] twoStream (mkStreamStatistics twoNodes twoPath)

/-- The converged run on the gated topology. -/
def gateFinal : CalcState := (convergedRun gateCtx).2

/-- The calculator state after the estimator's internal delay recomputation on
the two-stream context. -/
def uAfterDelays : CalcState := calculate_delays uCtx (initCalcState uCtx)

/-! Invariant vocabulary for the gate-free best/worst ordering. -/

/-- Nonnegative bandwidth table. -/
def bwOK (bw : Bandwidths) : Prop := ∀ e ∈ bw, 0 ≤ e.2.2

/-- Every stored statistic has best_case at most worst_case. -/
def statsOK (l : List PortStat) : Prop := ∀ ps ∈ l, ps.best_case ≤ ps.worst_case

/-- Relation between parallel best- and worst-trace entries maintained on
gate-free topologies: each trace keeps its two cumulative fields equal, best is
below worst, and the carried cycle is nonnegative. -/
def TraceRel (b : BEntry) (w : WEntry) : Prop :=
  b.cs = b.ce ∧ w.cs = w.ce ∧ b.cs ≤ w.cs ∧ 0 ≤ w.cyc

/-- The walk invariant: the traces are pointwise related and the statistics
written so far are ordered. -/
def Inv (st : WalkState) : Prop :=
  List.Forall₂ TraceRel st.best st.worst ∧ statsOK st.stats

/-- Well-formedness hypotheses for the gate-free invariant: no port enables a
gate, jitters and edge parameters are nonnegative, and every stream has a
nonnegative frame size and a positive cycle time. -/
def GateFreeCtx (c : Ctx) : Prop :=
  (∀ n, (c.topology.nodes n).gcl = false) ∧
  (∀ n, 0 ≤ (c.topology.nodes n).processing_jitter) ∧
  (∀ a b, 0 ≤ (c.topology.edge a b).link_speed ∧
    0 ≤ (c.topology.edge a b).max_frame_size ∧
    0 ≤ (c.topology.edge a b).transmission_jitter) ∧
  (∀ s ∈ c.streams, 0 ≤ s.framesize ∧ 0 < s.cycletime)

/-- Invariant for the whole calculator state. -/
def calcOK (s : CalcState) : Prop := bwOK s.bw ∧ ∀ e ∈ s.stats, statsOK e.2

end JDM

namespace JDM

theorem TraceRel_default : TraceRel bDefault wDefault := by
  refine ⟨rfl, rfl, le_refl _, le_refl _⟩

theorem forall2_headD {l₁ : List BEntry} {l₂ : List WEntry}
    (h : List.Forall₂ TraceRel l₁ l₂) (hd : TraceRel bDefault wDefault) :
    TraceRel (l₁.headD bDefault) (l₂.headD wDefault) := by
  cases h with
  | nil => exact hd
  | cons hR _ => exact hR

theorem forall2_getD {l₁ : List BEntry} {l₂ : List WEntry}
    (h : List.Forall₂ TraceRel l₁ l₂) (hd : TraceRel bDefault wDefault) :
    ∀ i, TraceRel (l₁.getD i bDefault) (l₂.getD i wDefault) := by
  induction h with
  | nil => intro i; exact hd
  | cons hR _ ih =>
      intro i
      cases i with
      | zero => exact hR
      | succ j => exact ih j

theorem statsOK_update {l : List PortStat} {p : PortStat → Bool} {f : PortStat → PortStat}
    (h : statsOK l) (hf : ∀ ps ∈ l, (f ps).best_case ≤ (f ps).worst_case) :
    statsOK (updateFirst p f l) := by
  induction l with
  | nil => intro ps hps; cases hps
  | cons x xs ih =>
      intro ps hps
      unfold updateFirst at hps
      by_cases hp : p x = true
      · rw [if_pos hp] at hps
        rcases List.mem_cons.mp hps with h1 | h2
        · rw [h1]; exact hf x (by simp)
        · exact h ps (List.mem_cons_of_mem _ h2)
      · rw [if_neg hp] at hps
        rcases List.mem_cons.mp hps with h1 | h2
        · rw [h1]; exact h x (by simp)
        · exact ih (fun q hq => h q (List.mem_cons_of_mem _ hq))
            (fun q hq => hf q (List.mem_cons_of_mem _ hq)) ps h2

theorem foldl_inv {α σ : Type _} {P : σ → Prop} {f : σ → α → σ} {l : List α} {init : σ}
    (h0 : P init) (hstep : ∀ s a, a ∈ l → P s → P (f s a)) : P (l.foldl f init) := by
  induction l generalizing init with
  | nil => exact h0
  | cons x xs ih =>
      exact ih (hstep init x (by simp) h0) (fun s a ha hp => hstep s a (by simp [ha]) hp)

theorem td_nonneg {framesize link_speed : ℚ} (hf : 0 ≤ framesize) (hl : 0 ≤ link_speed) :
    0 ≤ get_transmission_duration framesize link_speed := by
  unfold get_transmission_duration
  have h1 : (0 : ℚ) ≤ link_speed / 8 * 1000000 := by positivity
  positivity

theorem gbw_nonneg {bw : Bandwidths} {stream : Stream} {n : Option String}
    (hbw : bwOK bw) (hf : 0 ≤ stream.framesize) : 0 ≤ get_bandwidth bw stream n := by
  unfold get_bandwidth
  split
  · exact hf
  · split
    · rename_i e hfind
      exact hbw e (List.mem_of_find?_eq_some hfind)
    · exact hf

theorem mem_of_crossing {c : Ctx} {obs port : String} {s : Stream}
    (h : s ∈ get_crossing_streams c obs port) : s ∈ c.streams := by
  unfold get_crossing_streams at h
  exact (List.mem_filter.mp h).1

theorem mem_of_interfering {c : Ctx} {obs : Stream} {port : String} {s : Stream}
    (h : s ∈ get_interfering_streams c obs port) : s ∈ c.streams := by
  simp only [get_interfering_streams] at h
  split at h
  · exact mem_of_crossing (List.mem_filter.mp h).1
  · exact mem_of_crossing (List.mem_filter.mp h).1

theorem mem_of_interferingAt {c : Ctx} {nd : NodeData} {stream : Stream} {name : String}
    {s : Stream} (h : s ∈ interferingAt c nd stream name) : s ∈ c.streams := by
  simp only [interferingAt] at h
  split at h
  · have h3 := (List.mem_filter.mp h).1
    split at h3
    · exact mem_of_interfering (List.mem_filter.mp (List.mem_filter.mp h3).1).1
    · exact mem_of_interfering (List.mem_filter.mp h3).1
  · split at h
    · exact mem_of_interfering (List.mem_filter.mp (List.mem_filter.mp h).1).1
    · exact mem_of_interfering (List.mem_filter.mp h).1

theorem ceilQ_nonneg {x : ℚ} (h : 0 ≤ x) : 0 ≤ ceilQ x := by
  unfold ceilQ
  have : (0 : ℤ) ≤ ⌈x⌉ := Int.ceil_nonneg h
  exact_mod_cast this

theorem interferenceDelay_nonneg {c : Ctx} {bw : Bandwidths} {nd : NodeData}
    {stream : Stream} {name : String} {e : EdgeData} {prev_cycle : ℚ}
    (hbw : bwOK bw) (hl : 0 ≤ e.link_speed) (hj : 0 ≤ e.transmission_jitter)
    (hstreams : ∀ s ∈ c.streams, 0 ≤ s.framesize)
    (hcyc : 0 ≤ prev_cycle) (hct : 0 < stream.cycletime) :
    0 ≤ interferenceDelay c bw nd stream name e prev_cycle := by
  unfold interferenceDelay
  have hceil : 0 ≤ ceilQ (prev_cycle / stream.cycletime) :=
    ceilQ_nonneg (div_nonneg hcyc (le_of_lt hct))
  apply mul_nonneg _ hceil
  split
  · exact le_refl 0
  · apply List.sum_nonneg
    intro x hx
    rcases List.mem_map.mp hx with ⟨s, hs, rfl⟩
    have hsf : 0 ≤ s.framesize := hstreams s (mem_of_interferingAt hs)
    have h1 : 0 ≤ get_stream_transmission_duration bw s e.link_speed (some name) := by
      unfold get_stream_transmission_duration
      apply td_nonneg _ hl
      have := @gbw_nonneg bw s (some name) hbw hsf
      linarith
    linarith

theorem blockingBytes_nonneg {nd : NodeData} {M : ℚ} {prio : ℕ} (hM : 0 ≤ M) :
    0 ≤ blockingBytes nd M prio := by
  simp only [blockingBytes]
  split_ifs <;> linarith

theorem blockingDelay_nonneg {name : String} {nd : NodeData} {e : EdgeData} {prio : ℕ}
    (hM : 0 ≤ e.max_frame_size) (hl : 0 ≤ e.link_speed) :
    0 ≤ blockingDelay name nd e prio := by
  unfold blockingDelay
  split
  · exact le_refl 0
  · exact td_nonneg (blockingBytes_nonneg hM) hl

theorem traceRel_min_max {b : BEntry} {w : WEntry} (h : TraceRel b w) :
    min b.cs b.ce ≤ max w.cs w.ce := by
  rcases h with ⟨h1, h2, h3, _⟩
  calc min b.cs b.ce ≤ b.cs := by rw [h1]; exact le_of_eq (min_self _)
    _ ≤ w.cs := h3
    _ ≤ max w.cs w.ce := le_max_left _ _

theorem pushEntries_inv {st : WalkState} {nb0 : BEntry} {nw0 : WEntry} {m : ℚ}
    (name : String) (h : Inv st) (hR : TraceRel nb0 nw0) :
    Inv (pushEntries name st (st.best.headD bDefault) (st.worst.headD wDefault) nb0 nw0 m) := by
  have R1 : TraceRel (st.best.headD bDefault) (st.worst.headD wDefault) :=
    forall2_headD h.1 TraceRel_default
  unfold pushEntries
  have hR2 : TraceRel
      (if strContains name "talker" || strContains name "listener" then
        { (if nb0.we < nb0.ws then { nb0 with we := nb0.ws } else nb0) with
          cs := (st.best.headD bDefault).cs, ce := (st.best.headD bDefault).ce }
       else (if nb0.we < nb0.ws then { nb0 with we := nb0.ws } else nb0))
      (if strContains name "talker" || strContains name "listener" then
        { nw0 with cs := (st.worst.headD wDefault).cs, ce := (st.worst.headD wDefault).ce }
       else nw0) := by
    split
    · refine ⟨R1.1, R1.2.1, ?_, ?_⟩
      · split <;> exact R1.2.2.1
      · exact hR.2.2.2
    · refine ⟨?_, hR.2.1, ?_, hR.2.2.2⟩
      · split <;> exact hR.1
      · split <;> exact hR.2.2.1
  refine ⟨List.Forall₂.cons hR2 h.1, ?_⟩
  apply statsOK_update h.2
  intro ps _
  exact traceRel_min_max hR2

theorem stepNode_inv {c : Ctx} {bw : Bandwidths} {stream : Stream} {path : List String}
    {index : ℕ} {st : WalkState} (hc : GateFreeCtx c) (hbw : bwOK bw)
    (hs : stream ∈ c.streams) (h : Inv st) :
    Inv (stepNode c bw stream path index st) := by
  obtain ⟨hgcl, hjp, hedge, hstreams⟩ := hc
  have R1 : TraceRel (st.best.headD bDefault) (st.worst.headD wDefault) :=
    forall2_headD h.1 TraceRel_default
  have R2 : TraceRel (st.best.getD 1 bDefault) (st.worst.getD 1 wDefault) :=
    forall2_getD h.1 TraceRel_default 1
  have hE := hedge (path.getD index "") (path.getD (index + 1) "")
  have hblck : 0 ≤ blockingDelay (path.getD index "")
      (c.topology.nodes (path.getD index ""))
      (c.topology.edge (path.getD index "") (path.getD (index + 1) "")) stream.priority :=
    blockingDelay_nonneg hE.2.1 hE.1
  have hint : 0 ≤ interferenceDelay c bw (c.topology.nodes (path.getD index "")) stream
      (path.getD index "") (c.topology.edge (path.getD index "") (path.getD (index + 1) ""))
      (st.worst.getD 1 wDefault).cyc :=
    interferenceDelay_nonneg hbw hE.1 hE.2.2 (fun s hs' => (hstreams s hs').1)
      R2.2.2.2 (hstreams stream hs).2
  have hmax : (0 : ℚ) ≤ max 0 ((st.worst.getD 1 wDefault).cyc -
      (c.topology.nodes (path.getD index "")).gcl_cycle) := le_max_left _ _
  by_cases hrx : is_rx_port (path.getD index "") path = true
  · simp only [stepNode, hrx, if_true]
    exact ⟨h.1, h.2⟩
  · rw [Bool.not_eq_true] at hrx
    by_cases hfwd : (c.topology.nodes (path.getD index "")).forwarding_node = true
    · simp only [stepNode, hrx, hfwd, Bool.false_eq_true, if_false, if_true]
      apply pushEntries_inv _ h
      refine ⟨?_, ?_, ?_, ?_⟩
      · dsimp only
        rw [R1.1]
      · dsimp only
      · dsimp only
        have h3 := R1.2.2.1
        have h4 := hjp (path.getD index "")
        linarith
      · dsimp only
        exact le_refl 0
    · rw [Bool.not_eq_true] at hfwd
      simp only [stepNode, hrx, hfwd, hgcl, Bool.false_eq_true, if_false]
      split
      all_goals
        apply pushEntries_inv _ h
        refine ⟨?_, ?_, ?_, ?_⟩
      · dsimp only
        rw [R1.1]
      · dsimp only
        rw [R1.2.1]
      · dsimp only
        have h3 := R1.2.2.1
        have h4 := hE.2.2
        linarith [hblck, hint, hmax]
      · dsimp only
        exact R2.2.2.2
      · dsimp only
        rw [R1.1]
      · dsimp only
        rw [R1.2.1]
      · dsimp only
        have h3 := R1.2.2.1
        have h4 := hE.2.2
        linarith [hblck, hint, hmax]
      · dsimp only
        exact R2.2.2.2

theorem calcDelays_inv {c : Ctx} {bw : Bandwidths} {stream : Stream} {stats : List PortStat}
    (hc : GateFreeCtx c) (hbw : bwOK bw) (hs : stream ∈ c.streams) :
    Inv (calcDelaysForStream c bw stream stats) := by
  unfold calcDelaysForStream
  apply foldl_inv
  · refine ⟨?_, ?_⟩
    · exact List.Forall₂.cons ⟨rfl, rfl, le_refl 0, le_of_lt (hc.2.2.2 stream hs).2⟩
        List.Forall₂.nil
    · intro ps hps
      rcases List.mem_map.mp hps with ⟨q, _, rfl⟩
      exact le_refl 0
  · intro s i _ hI
    exact stepNode_inv hc hbw hs hI

theorem set_bandwidth_ok {bw : Bandwidths} {stream : Stream} {n : String} {b : ℚ}
    (hbw : bwOK bw) (hf : 0 ≤ stream.framesize) : bwOK (set_bandwidth bw stream n b) := by
  unfold set_bandwidth
  split
  · intro e he
    rcases List.mem_cons.mp he with h1 | h2
    · rw [h1]
      dsimp only
      have h3 := @gbw_nonneg bw stream (some n) hbw hf
      rename_i hlt
      linarith
    · exact hbw e h2
  · exact hbw

theorem recalc_stream_ok {c : Ctx} {bw : Bandwidths} {stream : Stream} {stats : List PortStat}
    (hbw : bwOK bw) (hf : 0 ≤ stream.framesize) :
    bwOK (recalculate_bandwidth_for_stream c bw stream stats) := by
  unfold recalculate_bandwidth_for_stream
  apply foldl_inv hbw
  intro bw' i _ hbw'
  dsimp only
  split
  · exact hbw'
  split
  · exact hbw'
  split
  · exact hbw'
  split
  · exact hbw'
  split
  · exact hbw'
  · exact set_bandwidth_ok hbw' hf

theorem recalculate_bandwidth_ok {c : Ctx} {s : CalcState} (hc : GateFreeCtx c)
    (h : calcOK s) : calcOK (recalculate_bandwidth c s) := by
  refine ⟨?_, h.2⟩
  unfold recalculate_bandwidth
  dsimp only
  apply foldl_inv h.1
  intro bw stream hmem hbw
  exact recalc_stream_ok hbw (hc.2.2.2 stream hmem).1

theorem propagate_ok {c : Ctx} {s : CalcState} {stream : Stream} (hc : GateFreeCtx c)
    (h : calcOK s) (hmem : stream ∈ c.streams) : calcOK (propagateStream c s stream) := by
  refine ⟨h.1, ?_⟩
  intro e he
  unfold propagateStream at he
  dsimp only at he
  rcases List.mem_cons.mp he with h1 | h2
  · rw [h1]
    exact (calcDelays_inv hc h.1 hmem).2
  · exact h.2 e h2

theorem calculate_delays_ok {c : Ctx} {s : CalcState} (hc : GateFreeCtx c) (h : calcOK s) :
    calcOK (calculate_delays c s) := by
  unfold calculate_delays
  apply foldl_inv h
  intro s' stream hmem hok
  exact propagate_ok hc hok hmem

theorem util_stats_ok {c : Ctx} {bw : Bandwidths} {stream : Stream} {stats : List PortStat}
    {mults : List ℚ} (h : statsOK stats) :
    statsOK (get_resource_utilization_for_stream c bw stream stats mults).2 := by
  unfold get_resource_utilization_for_stream
  dsimp only
  apply foldl_inv (P := fun acc : UtilAcc => statsOK acc.stats)
  · intro ps hps
    rcases List.mem_map.mp hps with ⟨q, hq, rfl⟩
    exact h q hq
  · intro acc i _ hacc
    dsimp only
    split
    · exact hacc
    · apply statsOK_update hacc
      intro ps hps
      exact hacc ps hps

theorem getStreamStats_ok {s : CalcState} {name : String} (h : calcOK s) :
    statsOK (getStreamStats s name) := by
  unfold getStreamStats
  split
  · rename_i e hfind
    exact h.2 e (List.mem_of_find?_eq_some hfind)
  · intro ps hps
    cases hps

theorem estimator_ok {c : Ctx} {s : CalcState} (hc : GateFreeCtx c) (h : calcOK s) :
    calcOK (get_resource_utilization c s).2 := by
  unfold get_resource_utilization
  have h1 := calculate_delays_ok hc h
  dsimp only
  split
  · exact h1
  · refine ⟨h1.1, ?_⟩
    intro e he
    rcases List.mem_cons.mp he with h2 | h2
    · rw [h2]
      dsimp only
      exact util_stats_ok (getStreamStats_ok h1)
    · exact h1.2 e h2

theorem initCalcState_ok {c : Ctx} : calcOK (initCalcState c) := by
  refine ⟨?_, ?_⟩
  · intro e he
    cases he
  · intro e he
    rcases List.mem_map.mp he with ⟨s', _, rfl⟩
    dsimp only
    intro ps hps
    unfold mkStreamStatistics at hps
    rcases List.mem_filterMap.mp hps with ⟨i, _, hsome⟩
    dsimp only at hsome
    repeat' split at hsome
    all_goals cases hsome
    all_goals simp

theorem crossing_self_nil {c : Ctx} {stream : Stream} (h : c.streams = [stream])
    (port : String) : get_crossing_streams c stream.name port = [] := by
  unfold get_crossing_streams
  rw [h]
  simp

theorem interfering_self_nil {c : Ctx} {stream : Stream} (h : c.streams = [stream])
    (port : String) : get_interfering_streams c stream port = [] := by
  simp only [get_interfering_streams]
  rw [crossing_self_nil h]
  split <;> simp

theorem interferingAt_self_nil {c : Ctx} {nd : NodeData} {stream : Stream}
    (h : c.streams = [stream]) (name : String) : interferingAt c nd stream name = [] := by
  simp only [interferingAt]
  rw [interfering_self_nil h]
  split <;> split <;> simp

theorem interferenceDelay_self_zero {c : Ctx} {bw : Bandwidths} {nd : NodeData}
    {stream : Stream} {name : String} {e : EdgeData} {pc : ℚ} (h : c.streams = [stream]) :
    interferenceDelay c bw nd stream name e pc = 0 := by
  simp only [interferenceDelay]
  rw [interferingAt_self_nil h]
  simp

theorem gstd_none (bw : Bandwidths) (s : Stream) (link_speed : ℚ) :
    get_stream_transmission_duration bw s link_speed none =
      get_transmission_duration (s.framesize + 20) link_speed := rfl

theorem stepNode_bw_irrel {c : Ctx} {stream : Stream} (bw bw' : Bandwidths)
    (path : List String) (index : ℕ) (st : WalkState) (h : c.streams = [stream]) :
    stepNode c bw stream path index st = stepNode c bw' stream path index st := by
  simp only [stepNode, interferenceDelay_self_zero h, interferingAt_self_nil h, gstd_none]

theorem spCtx_gatefree : GateFreeCtx spCtx := by
  refine ⟨?_, ?_, ?_, ?_⟩
  · intro n
    show (spNodes n).gcl = false
    unfold spNodes
    split <;> rfl
  · intro n
    show (0 : ℚ) ≤ (spNodes n).processing_jitter
    unfold spNodes
    split <;> norm_num
  · intro a b
    exact ⟨show (0 : ℚ) ≤ 1000 by norm_num, show (0 : ℚ) ≤ 1522 by norm_num,
      le_refl (0 : ℚ)⟩
  · intro s hs
    rcases List.mem_singleton.mp hs with rfl
    exact ⟨show (0 : ℚ) ≤ 100 by norm_num, show (0 : ℚ) < 100000 by norm_num⟩

theorem takeWhile_append_all {p : Char → Bool} (l₁ l₂ : List Char)
    (h : ∀ x ∈ l₁, p x = true) :
    (l₁ ++ l₂).takeWhile p = l₁ ++ l₂.takeWhile p := by
  induction l₁ with
  | nil => simp
  | cons a l ih =>
      simp [List.takeWhile_cons, h a (by simp),
        ih (fun x hx => h x (List.mem_cons_of_mem _ hx))]

/-- C1 (counterexample): with a 2000-byte bandwidth-table entry for the stream at
the switch tx port, the run's summarized best case is 1960 ns, built from
T(framesize+20, L) = 960 ns, not the 17160 ns that T(B_eff+20, L) = 16160 ns
would give. -/
theorem claim1_counterexample :
    (calcReturn spWalkBw).1 = 1960 ∧
    get_bandwidth spBw spStream (some "sw-1") = 2000 ∧
    (spNodes "sw").processing_delay - (spNodes "sw").processing_jitter +
      get_transmission_duration (get_bandwidth spBw spStream (some "sw-1") + 20) 1000
        = 17160 ∧
    ((1960 : ℚ) ≠ 17160) := by
  refine ⟨by with_unfolding_all rfl, by with_unfolding_all rfl,
    by with_unfolding_all rfl, by norm_num⟩

/-- C1 (amended): the propagator's own-transmission delay is
T(framesize+20, L) from the declared frame size (node None is passed), and for a
topology with a single stream the whole walk is independent of the bandwidth
table. -/
theorem claim1_amended (c : Ctx) (stream : Stream) (h : c.streams = [stream]) :
    (∀ (bw : Bandwidths) (link_speed : ℚ),
       get_stream_transmission_duration bw stream link_speed none =
         get_transmission_duration (stream.framesize + 20) link_speed) ∧
    (∀ (bw bw' : Bandwidths) (stats : List PortStat),
       calcDelaysForStream c bw stream stats = calcDelaysForStream c bw' stream stats) := by
  refine ⟨fun _ _ => rfl, fun bw bw' stats => ?_⟩
  unfold calcDelaysForStream
  apply List.foldl_ext
  intro st i _
  exact stepNode_bw_irrel bw bw' _ i st h

/-- C1 (witness): the amended statement applied to the plain topology and the
concrete 2000-byte bandwidth table. -/
theorem claim1_witness :
    calcDelaysForStream spCtx spBw spStream (mkStreamStatistics spNodes spPath) =
      calcDelaysForStream spCtx [] spStream (mkStreamStatistics spNodes spPath) ∧
    get_stream_transmission_duration spBw spStream 1000 none =
      get_transmission_duration (spStream.framesize + 20) 1000 := by
  have h := claim1_amended spCtx spStream rfl
  exact ⟨h.2 spBw [] _, h.1 spBw 1000⟩

/-- C2 (counterexample): on the gated topology the converged run stores
best_case 49000 > worst_case 48000 at the switch tx port: the claimed invariant
fails. -/
theorem claim2_counterexample :
    ((getStreamStats gateFinal "Stream 1").getD 2 psDefault).node_name = "sw" ∧
    ((getStreamStats gateFinal "Stream 1").getD 2 psDefault).best_case = 49000 ∧
    ((getStreamStats gateFinal "Stream 1").getD 2 psDefault).worst_case = 48000 ∧
    ¬ ((49000 : ℚ) ≤ 48000) := by
  refine ⟨by with_unfolding_all rfl, by with_unfolding_all rfl,
    by with_unfolding_all rfl, by norm_num⟩

/-- C2 (amended): on a topology with no gate-enabled ports, nonnegative jitters
and edge parameters, nonnegative frame sizes and positive cycle times, every
port statistic stored by the converged run satisfies best_case ≤ worst_case. -/
theorem claim2_amended (c : Ctx) (hc : GateFreeCtx c) :
    ∀ e ∈ (convergedRun c).2.stats, statsOK e.2 := by
  have h6 := estimator_ok hc (calculate_delays_ok hc (recalculate_bandwidth_ok hc
    (calculate_delays_ok hc (recalculate_bandwidth_ok hc
      (calculate_delays_ok hc (initCalcState_ok (c := c)))))))
  exact h6.2

/-- C2 (witness): the amended statement applied to the plain gate-free topology. -/
theorem claim2_witness :
    GateFreeCtx spCtx ∧ ∀ e ∈ (convergedRun spCtx).2.stats, statsOK e.2 :=
  ⟨spCtx_gatefree, claim2_amended spCtx spCtx_gatefree⟩

/-- C3 (counterexample): after the gated first switch the worst trace reaches the
second switch with cum_start 8930 and cum_end 3930; the forwarding-node hop for
sw2 stores cum_end 10030 = 8930 + 1100, not 3930 + 1100 as the claim requires. -/
theorem claim3_counterexample :
    (twoWalk.worst.getD 2 wDefault).node = "sw2" ∧
    (twoNodes "sw2").forwarding_node = true ∧
    (twoWalk.worst.getD 3 wDefault).cs = 8930 ∧
    (twoWalk.worst.getD 3 wDefault).ce = 3930 ∧
    (twoNodes "sw2").processing_delay + (twoNodes "sw2").processing_jitter = 1100 ∧
    (twoWalk.worst.getD 2 wDefault).ce = 10030 ∧
    ((10030 : ℚ) ≠ 3930 + 1100) := by
  refine ⟨by with_unfolding_all rfl, by with_unfolding_all rfl, by with_unfolding_all rfl,
    by with_unfolding_all rfl, by with_unfolding_all rfl, by with_unfolding_all rfl,
    by norm_num⟩

/-- C3 (amended): at a forwarding-node hop (away from the endpoints, with a
non-inverted best window) the best entry adds dproc − jproc to all four time
fields, while the worst entry adds dproc + jproc to w_start, w_end and
cum_start but sets cum_end to the previous cum_start + (dproc + jproc), and
resets the carried cycle to 0. -/
theorem claim3_amended (c : Ctx) (bw : Bandwidths) (stream : Stream) (path : List String)
    (index : ℕ) (st : WalkState)
    (hfwd : (c.topology.nodes (path.getD index "")).forwarding_node = true)
    (hrx : is_rx_port (path.getD index "") path = false)
    (hend : (strContains (path.getD index "") "talker" ||
             strContains (path.getD index "") "listener") = false)
    (hwin : (st.best.headD bDefault).ws ≤ (st.best.headD bDefault).we) :
    (stepNode c bw stream path index st).best.headD bDefault =
      ⟨path.getD index "",
       (st.best.headD bDefault).ws + ((c.topology.nodes (path.getD index "")).processing_delay
         - (c.topology.nodes (path.getD index "")).processing_jitter),
       (st.best.headD bDefault).we + ((c.topology.nodes (path.getD index "")).processing_delay
         - (c.topology.nodes (path.getD index "")).processing_jitter),
       (st.best.headD bDefault).cs + ((c.topology.nodes (path.getD index "")).processing_delay
         - (c.topology.nodes (path.getD index "")).processing_jitter),
       (st.best.headD bDefault).ce + ((c.topology.nodes (path.getD index "")).processing_delay
         - (c.topology.nodes (path.getD index "")).processing_jitter)⟩ ∧
    (stepNode c bw stream path index st).worst.headD wDefault =
      ⟨path.getD index "",
       (st.worst.headD wDefault).ws + ((c.topology.nodes (path.getD index "")).processing_delay
         + (c.topology.nodes (path.getD index "")).processing_jitter),
       (st.worst.headD wDefault).we + ((c.topology.nodes (path.getD index "")).processing_delay
         + (c.topology.nodes (path.getD index "")).processing_jitter),
       (st.worst.headD wDefault).cs + ((c.topology.nodes (path.getD index "")).processing_delay
         + (c.topology.nodes (path.getD index "")).processing_jitter),
       (st.worst.headD wDefault).cs + ((c.topology.nodes (path.getD index "")).processing_delay
         + (c.topology.nodes (path.getD index "")).processing_jitter),
       0⟩ := by
  simp only [stepNode, hrx, hfwd, hend, Bool.false_eq_true, if_false, if_true, pushEntries]
  split
  · rename_i hlt
    exact absurd hlt (not_lt.mpr (by linarith))
  · exact ⟨rfl, rfl⟩

/-- C3 (witness): the amended statement applied at the switch forwarding node of
the plain topology. -/
theorem claim3_witness :
    (stepNode spCtx [] spStream spPath 3 (initWalkState spStream [])).worst.headD wDefault =
      ⟨"sw", 1100, 1100, 1100, 1100, 0⟩ := by
  have h := claim3_amended spCtx [] spStream spPath 3 (initWalkState spStream [])
    (by with_unfolding_all rfl) (by with_unfolding_all rfl) (by with_unfolding_all rfl)
    (le_of_eq (by with_unfolding_all rfl))
  rw [h.2]
  with_unfolding_all rfl

/-- C4 (counterexample): on the plain topology calculate_delays_for_stream
returns best case 1960 ns, while the summarizedBestCaseDelay written to the
results JSON is the sum of the stored cumulative per-port values, 2960 ns. -/
theorem claim4_counterexample :
    (calcReturn spWalk).1 = 1960 ∧
    get_summarized_best_case spWalk.stats none = 2960 ∧ ((2960 : ℚ) ≠ 1960) := by
  refine ⟨by with_unfolding_all rfl, by with_unfolding_all rfl, by norm_num⟩

/-- C4 (amended): the values returned by calculate_delays_for_stream are
min/max of the cumulative fields of the penultimate trace entries, while the
summarizedBestCaseDelay / summarizedWorstCaseDelay written by export_json are
the sums of the stored per-port values (which are cumulative, so the two
disagree in general). -/
theorem claim4_amended :
    (∀ (c : Ctx) (bw : Bandwidths) (stream : Stream) (stats : List PortStat),
       calcReturn (calcDelaysForStream c bw stream stats) =
         (min ((calcDelaysForStream c bw stream stats).best.getD 1 bDefault).cs
              ((calcDelaysForStream c bw stream stats).best.getD 1 bDefault).ce,
          max ((calcDelaysForStream c bw stream stats).worst.getD 1 wDefault).cs
              ((calcDelaysForStream c bw stream stats).worst.getD 1 wDefault).ce)) ∧
    (∀ stats : List PortStat,
       get_summarized_best_case stats none = (stats.map (fun ps => ps.best_case)).sum ∧
       get_summarized_worst_case stats none = (stats.map (fun ps => ps.worst_case)).sum) :=
  ⟨fun _ _ _ _ => rfl, fun _ => ⟨rfl, rfl⟩⟩

/-- C5: two nodes whose JSON omits syncDomain both parse to the sync domain
string None (Python str(None)), so are_synchronized counts them as
synchronized, contradicting the claim that an absent sync domain never
matches. -/
theorem claim5_code_bug :
    node_sync_domain_from_json [] = some "None" ∧
    syncMatch (node_sync_domain_from_json []) (node_sync_domain_from_json []) = true :=
  ⟨rfl, rfl⟩

/-- C6 (counterexample): at a port with frame preemption disabled but express
priority 7 declared, a priority-7 stream gets blocking bytes maxFrameSize + 20
= 1542, not the 123 + 20 = 143 the claim predicts from membership in the
port's express set. -/
theorem claim6_counterexample :
    fpOffNode.express_priorities.contains 7 = true ∧
    fpOffNode.frame_preemption = false ∧
    blockingBytes fpOffNode 1522 7 = 1542 ∧
    ((1542 : ℚ) = 1522 + 20) ∧ ¬((1542 : ℚ) = 123 + 20) := by
  refine ⟨rfl, rfl, by with_unfolding_all rfl, by norm_num, by norm_num⟩

/-- C6 (amended): blocking bytes are 143 only when frame preemption is enabled
and the priority is express; otherwise maxFrameSize + 20; the count is
overridden to 0 when the effective gate-priority list (gclPriorities if the
gate is enabled, else all of 0..7) has no entry strictly below the stream's
priority; and the blocking delay is zeroed at nodes whose name contains the
substring talker. -/
theorem claim6_amended (nd : NodeData) (M : ℚ) (name : String) (e : EdgeData) (prio : ℕ) :
    (((if nd.gcl then nd.gcl_priorities else [0, 1, 2, 3, 4, 5, 6, 7]).filter
        (fun g => decide (g < prio))).isEmpty = true →
      blockingBytes nd M prio = 0) ∧
    (((if nd.gcl then nd.gcl_priorities else [0, 1, 2, 3, 4, 5, 6, 7]).filter
        (fun g => decide (g < prio))).isEmpty = false →
      ((nd.frame_preemption = true → nd.express_priorities.contains prio = true →
          blockingBytes nd M prio = 143) ∧
       ((if nd.frame_preemption then nd.express_priorities else []).contains prio = false →
          blockingBytes nd M prio = M + 20))) ∧
    (strContains name "talker" = true → blockingDelay name nd e prio = 0) := by
  refine ⟨?_, ?_, ?_⟩
  · intro h0
    simp only [blockingBytes, h0, if_true]
  · intro h0
    constructor
    · intro hfp hmem
      simp only [blockingBytes, hfp, hmem, if_true, h0, Bool.false_eq_true, if_false]
      norm_num
    · intro hnm
      simp only [blockingBytes, hnm, h0, Bool.false_eq_true, if_false]
  · intro ht
    simp only [blockingDelay, ht, if_true]

/-- C6 (witness): the amended statement applied to a frame-preemption port with
express priority 7 and to a talker-named node. -/
theorem claim6_witness :
    blockingBytes fpOnNode 9999 7 = 143 ∧
    blockingDelay "talker-a" fpOnNode {} 7 = 0 := by
  have h := claim6_amended fpOnNode 9999 "talker-a" {} 7
  exact ⟨(h.2.1 (by with_unfolding_all rfl)).1 (by with_unfolding_all rfl)
    (by with_unfolding_all rfl), h.2.2 (by with_unfolding_all rfl)⟩

/-- C7: the interfering-streams set is exactly the crossing streams filtered by
the express-aware priority rule of the claim. -/
theorem claim7_interference (c : Ctx) (obs s' : Stream) (port : String) :
    s' ∈ get_interfering_streams c obs port ↔
      (s' ∈ c.streams ∧ port ∈ c.stream_paths s'.name ∧ s'.name ≠ obs.name ∧
        (if obs.priority ∈ (c.topology.nodes port).express_priorities then
           obs.priority ≤ s'.priority ∧
             s'.priority ∈ (c.topology.nodes port).express_priorities
         else
           s'.priority ∈ (c.topology.nodes port).express_priorities ∨
             obs.priority ≤ s'.priority)) := by
  by_cases hin : obs.priority ∈ (c.topology.nodes port).express_priorities
  · have hb : (c.topology.nodes port).express_priorities.contains obs.priority = true := by
      exact List.elem_eq_true_of_mem hin
    rw [if_pos hin]
    simp only [get_interfering_streams, get_crossing_streams, hb, if_true,
      List.mem_filter, Bool.and_eq_true, bne_iff_ne, ne_eq, decide_eq_true_eq,
      List.elem_iff]
    tauto
  · have hb : (c.topology.nodes port).express_priorities.contains obs.priority = false := by
      rw [← Bool.not_eq_true]
      intro hcon
      exact hin (List.mem_of_elem_eq_true hcon)
    rw [if_neg hin]
    simp only [get_interfering_streams, get_crossing_streams, hb, Bool.false_eq_true,
      if_false, List.mem_filter, Bool.and_eq_true, Bool.or_eq_true, bne_iff_ne, ne_eq,
      decide_eq_true_eq, List.elem_iff]
    tauto

/-- C8 (counterexample): on two disjoint streams the estimator returns 6/625,
the occupancy maximum of the first stream only, although a tx port on the
second stream's path has occupancy 102/125. -/
theorem claim8_counterexample :
    (get_resource_utilization uCtx (initCalcState uCtx)).1 = some (6/625) ∧
    ((get_resource_utilization_for_stream uCtx uAfterDelays.bw uStream2
        (getStreamStats uAfterDelays "S2") (getMults uAfterDelays "S2")).1.getD 0 0
      = 102/125) ∧
    ((6/625 : ℚ) < 102/125) := by
  refine ⟨by with_unfolding_all rfl, by with_unfolding_all rfl, by norm_num⟩

/-- C8 (amended): get_resource_utilization reruns the delay propagation for all
streams and then returns the occupancy maximum of the first stream alone (its
return statement sits inside the per-stream loop). -/
theorem claim8_amended (c : Ctx) (st : CalcState) (s0 : Stream) (rest : List Stream)
    (h : c.streams = s0 :: rest) :
    (get_resource_utilization c st).1 =
      listMax (get_resource_utilization_for_stream c (calculate_delays c st).bw s0
        (getStreamStats (calculate_delays c st) s0.name)
        (getMults (calculate_delays c st) s0.name)).1 := by
  simp only [get_resource_utilization, h]

/-- C8 (witness): the amended statement applied to the two-stream context. -/
theorem claim8_witness :
    (get_resource_utilization uCtx (initCalcState uCtx)).1 =
      listMax (get_resource_utilization_for_stream uCtx
        (calculate_delays uCtx (initCalcState uCtx)).bw uStream1
        (getStreamStats (calculate_delays uCtx (initCalcState uCtx)) uStream1.name)
        (getMults (calculate_delays uCtx (initCalcState uCtx)) uStream1.name)).1 :=
  claim8_amended uCtx (initCalcState uCtx) uStream1 [uStream2] rfl

/-- C9: serializing a port with gclCycle 100000 and parsing it back yields
gclCycle 1000000 (port_from_json reads the key gcl_cycle, which to_json never
writes), so the second serialization differs from the first. -/
theorem claim9_code_bug :
    port_from_json (port_to_json "1" roundtripPort) =
      some ("1", { roundtripPort with gcl_cycle := 1000000 }) ∧
    roundtripPort.gcl_cycle = 100000 ∧
    jGet (port_to_json "1" { roundtripPort with gcl_cycle := 1000000 }) "gclCycle"
      = some (JVal.i 1000000) ∧
    jGet (port_to_json "1" roundtripPort) "gclCycle" = some (JVal.i 100000) ∧
    ((1000000 : ℤ) ≠ 100000) := by
  refine ⟨by with_unfolding_all rfl, rfl, by with_unfolding_all rfl,
    by with_unfolding_all rfl, by norm_num⟩

/-- C10: a vertex name is a port iff it contains a hyphen and a forwarding node
iff it does not, so every vertex is exactly one of the two; and a hyphenated
name is owned by the node named by the prefix before the first hyphen. -/
theorem claim10_classification :
    (∀ name : String, is_port name = !(is_forwarding_node name)) ∧
    (∀ a b : String, (∀ ch ∈ a.toList, ¬ ch = '-') →
      get_forwarding_node_name_by_port (a ++ "-" ++ b) = a) := by
  constructor
  · intro name
    unfold is_port is_forwarding_node
    rw [Bool.not_not]
  · intro a b hab
    unfold get_forwarding_node_name_by_port headBeforeDash
    have hlist : (a ++ "-" ++ b).toList = a.toList ++ '-' :: b.toList := by
      simp [String.toList, String.data_append]
    rw [hlist, takeWhile_append_all]
    · simp
    · intro x hx
      simpa using hab x hx

/-- C10 (witness): the classification applied to concrete names. -/
theorem claim10_witness :
    is_port "sw-1" = !(is_forwarding_node "sw-1") ∧
    get_forwarding_node_name_by_port ("sw" ++ "-" ++ "1") = "sw" := by
  have h := claim10_classification
  exact ⟨h.1 "sw-1", h.2 "sw" "1" (by decide)⟩

end JDM
